import Mathlib

/-!
Verification of the configuration-validation engine of the
Python-ImageGenerator repository (one-dimensional "sticks" lattice
diagrams), as a shallow embedding in Lean.

Python numbers are modelled as rationals (`Int` for `int` literals,
`ℚ` for `float` values): none of the validators' comparisons depend on
binary floating-point rounding.  Python exceptions are modelled by an
`Except Err` result where each constructor of `Err` stands for one
raise site of the source, tagged with the exception class the site
raises (`TypeError`, `ValueError`, `KeyError`, `IndexError`).
-/

namespace ImgGen

/-- The Python runtime types that occur in the configuration data. -/
inductive PyType
  | tInt
  | tFloat
  | tBool
  | tStr
  | tList
  | tDict
  | tNone
  deriving DecidableEq, Repr

/-- Shallow embedding of the Python values the validators manipulate. -/
inductive PyVal
  | vInt (n : Int)
  | vFloat (q : ℚ)
  | vBool (b : Bool)
  | vStr (s : String)
  | vList (xs : List PyVal)
  | vDict (entries : List (String × PyVal))
  | vNone

/-- Python `type(v)`. -/
def PyVal.typeOf : PyVal → PyType
  | .vInt _ => .tInt
  | .vFloat _ => .tFloat
  | .vBool _ => .tBool
  | .vStr _ => .tStr
  | .vList _ => .tList
  | .vDict _ => .tDict
  | .vNone => .tNone

/-- Python `isinstance(v, c)` against a single class: `bool` is a
subclass of `int` in Python, every other pair of distinct runtime
types is unrelated. -/
def PyType.instanceOf (t c : PyType) : Bool :=
  t == c || (t == .tBool && c == .tInt)

/-- A set of acceptable classes, as in the tuples `(float, int)` of the
source's `_TEMPLATE` dictionary. -/
abbrev TypeSpec := List PyType

/-- Python `isinstance(v, dtype)` where `dtype` is a class or a tuple of
classes. -/
def isinstance (v : PyVal) (tys : TypeSpec) : Bool :=
  tys.any fun c => v.typeOf.instanceOf c

/-- Numeric value of a Python number; `bool` compares as `0`/`1` in
Python.  Junk value `0` on non-numbers: every use site is guarded by an
`isinstance` check against numeric classes. -/
def PyVal.toQ : PyVal → ℚ
  | .vInt n => (n : ℚ)
  | .vFloat q => q
  | .vBool b => if b then 1 else 0
  | _ => 0

/-- A Python dictionary with string keys, as the association list of its
items in insertion order (Python dictionaries preserve it). -/
abbrev Dict := List (String × PyVal)

/-- `d.keys()`, in order. -/
def dictKeys (d : Dict) : List String := d.map Prod.fst

/-- Python `set(a) == set(b)` over key lists. -/
def keySetEq (a b : List String) : Bool :=
  a.all (fun k => b.contains k) && b.all (fun k => a.contains k)

/-- The Python exception classes the validators raise. -/
inductive ExcClass
  | typeError
  | valueError
  | keyError
  | indexError
  deriving DecidableEq, Repr

/-- One constructor per raise site of the embedded validators (plus
`keyNotFound` for a failing subscript `d[k]`). -/
inductive Err
  | keyNotFound (key : String)
  | notADict (t : PyType)
  | topKeysMismatch (actual : List String)
  | sectionNotADict (t : PyType)
  | sectionKeysMismatch (sec : String) (actual : List String)
  | leafTypeMismatch (sec key : String) (t : PyType)
  | listInvalid (name : String)
  | realTypeMismatch (name : String)
  | realOutOfRange (name : String)
  | intTypeMismatch (name : String)
  | intOutOfRange (name : String)
  | boolTypeMismatch (name : String)
  | latticeEntriesNegative (key : String)
  | geometryX (psx pex w : ℚ)
  | geometryY (psy pey h : ℚ)
  | geometryOffsets (msg : String)
  | labelTooLarge (dim : String) (boxVal lblVal : ℚ)
  | nmersExceedNticks (nticks nmers : ℚ)
  | paramOutOfRange (key : String)
  | paramNotUnique (key : String)
  | scalarTypeMismatch
  | scalarNotPositive
  | scalarNotNegative
  | rpNotReal
  | rpNotPositive
  | arrNotNdarray
  | arrWrongDim
  | arrDtypeMismatch
  | arrNotPositive
  | arrNotNegative
  | arrNotUnique
  | rowsNotUnique (pairs : List (Nat × Nat))
  | colsNotUnique (pairs : List (Nat × Nat))
  | zeroRows
  deriving DecidableEq, Repr

/-- The Python exception class each raise site uses.  `rpNotReal` and
`rpNotPositive` both map to `TypeError`: `validate_real_positve` in
`src/validate/validate_properties.py` has a single raise site, a
`TypeError`, for both of its failure modes. -/
def Err.cls : Err → ExcClass
  | .keyNotFound _ => .keyError
  | .notADict _ => .typeError
  | .topKeysMismatch _ => .valueError
  | .sectionNotADict _ => .typeError
  | .sectionKeysMismatch _ _ => .valueError
  | .leafTypeMismatch _ _ _ => .typeError
  | .listInvalid _ => .typeError
  | .realTypeMismatch _ => .typeError
  | .realOutOfRange _ => .valueError
  | .intTypeMismatch _ => .typeError
  | .intOutOfRange _ => .valueError
  | .boolTypeMismatch _ => .typeError
  | .latticeEntriesNegative _ => .valueError
  | .geometryX _ _ _ => .valueError
  | .geometryY _ _ _ => .valueError
  | .geometryOffsets _ => .valueError
  | .labelTooLarge _ _ _ => .valueError
  | .nmersExceedNticks _ _ => .valueError
  | .paramOutOfRange _ => .valueError
  | .paramNotUnique _ => .valueError
  | .scalarTypeMismatch => .typeError
  | .scalarNotPositive => .valueError
  | .scalarNotNegative => .valueError
  | .rpNotReal => .typeError
  | .rpNotPositive => .typeError
  | .arrNotNdarray => .typeError
  | .arrWrongDim => .valueError
  | .arrDtypeMismatch => .typeError
  | .arrNotPositive => .valueError
  | .arrNotNegative => .valueError
  | .arrNotUnique => .typeError
  | .rowsNotUnique _ => .valueError
  | .colsNotUnique _ => .valueError
  | .zeroRows => .indexError

/-- The `_TEMPLATE` dictionary of
`latexlattices/lattices/oned_sticks/parameters.py`: top-level key to
(second-level key to acceptable-type set), in source order. -/
def TEMPLATE : List (String × List (String × TypeSpec)) :=
  [ ("box",
      [ ("position_top", [.tList]),
        ("height", [.tFloat, .tInt]),
        ("width", [.tFloat, .tInt]) ]),
    ("box_label",
      [ ("height", [.tFloat, .tInt]),
        ("width", [.tFloat, .tInt]) ]),
    ("lattice",
      [ ("offsets", [.tList]),
        ("position_end", [.tList]),
        ("position_start", [.tList]),
        ("vertical_spacing", [.tFloat, .tInt]) ]),
    ("lattice_elements",
      [ ("arrow_height", [.tFloat, .tInt]),
        ("circle_radius", [.tFloat, .tInt]),
        ("tick_height", [.tFloat, .tInt]),
        ("vacancies_visible", [.tBool]) ]),
    ("lattice_parameters",
      [ ("nmers", [.tInt]),
        ("nticks", [.tInt]),
        ("adsorbing", [.tList]),
        ("desorbing", [.tList]),
        ("fixed", [.tList]),
        ("jumping", [.tList]) ]) ]

/-- The inner loop of `_validate_general`: for each item of a section,
check the leaf value against the template's acceptable-type set
(`isinstance(value0, _TEMPLATE[key][key0])`). -/
def checkLeafTypes (sec : String) (spec : List (String × TypeSpec)) :
    Dict → Except Err Unit
  | [] => .ok ()
  | (key, v) :: rest =>
    match spec.lookup key with
    | none => .error (.keyNotFound key)
    | some tys =>
      if isinstance v tys then checkLeafTypes sec spec rest
      else .error (.leafTypeMismatch sec key v.typeOf)

/-- The outer loop of `_validate_general`: for each top-level item,
check it is a dictionary, its key set equals the template section's key
set, then check its leaves. -/
def checkSections : Dict → Except Err Unit
  | [] => .ok ()
  | (key, v) :: rest =>
    match v with
    | .vDict sub =>
      match TEMPLATE.lookup key with
      | none => .error (.keyNotFound key)
      | some spec =>
        if keySetEq (dictKeys sub) (spec.map Prod.fst) then
          match checkLeafTypes key spec sub with
          | .ok _ => checkSections rest
          | .error e => .error e
        else .error (.sectionKeysMismatch key (dictKeys sub))
    | _ => .error (.sectionNotADict v.typeOf)

/-- `_validate_general` of
`latexlattices/lattices/oned_sticks/parameters.py`: the object must be
a dictionary, its key set must equal the template's, and each entry is
then checked by the per-section loop. -/
def _validate_general (dictionary : PyVal) : Except Err Unit :=
  match dictionary with
  | .vDict entries =>
    if keySetEq (TEMPLATE.map Prod.fst) (dictKeys entries) then
      checkSections entries
    else .error (.topKeysMismatch (dictKeys entries))
  | _ => .error (.notADict dictionary.typeOf)

/-- Schema acceptance written from the spec's words, parameterised by
the leaf-acceptance test: a mapping, top-level key set equal to the
template's, every section a mapping with the template section's key
set, every leaf accepted against its declared type set. -/
def schemaOkayWith (leafOk : PyVal → TypeSpec → Bool) (d : PyVal) : Bool :=
  match d with
  | .vDict entries =>
    keySetEq (TEMPLATE.map Prod.fst) (dictKeys entries) &&
    entries.all fun p =>
      match p.2 with
      | .vDict sub =>
        match TEMPLATE.lookup p.1 with
        | none => false
        | some spec =>
          keySetEq (dictKeys sub) (spec.map Prod.fst) &&
          sub.all fun q =>
            match spec.lookup q.1 with
            | none => false
            | some tys => leafOk q.2 tys
      | _ => false
  | _ => false

/-- The claim's reading of leaf acceptance: the leaf's runtime type is
a member of the declared type set. -/
def schemaOkayRuntimeType (d : PyVal) : Bool :=
  schemaOkayWith (fun v tys => tys.contains v.typeOf) d

/-- The source's leaf acceptance: `isinstance`, under which a `bool`
leaf is accepted wherever `int` is declared. -/
def schemaOkayIsinstance (d : PyVal) : Bool :=
  schemaOkayWith (fun v tys => isinstance v tys) d

/-- Round to the nearest integer, ties to even: the rounding Python's
fixed-point formatting applies to the exact value. -/
def roundHalfEven (q : ℚ) : Int :=
  let n := ⌊q⌋
  if q - n < 1/2 then n
  else if 1/2 < q - n then n + 1
  else if n % 2 = 0 then n else n + 1

/-- Python `f"{q:.5f}"` on the exact value `q`: fixed-point notation
with exactly five digits after the decimal point. -/
def fmt5 (q : ℚ) : String :=
  let scaled := roundHalfEven (q * 100000)
  let sign := if scaled < 0 then "-" else ""
  let a := scaled.natAbs
  let ipart := a / 100000
  let fpart := a % 100000
  let fstr := Nat.repr fpart
  let pad := String.mk (List.replicate (5 - fstr.length) '0')
  sign ++ Nat.repr ipart ++ "." ++ pad ++ fstr

/-- The diagnostic of the offsets check of `_validate_params_lattice`:
both computed positions are reported to five decimal places (Python
`f"... {apos:.5f} >= {bpos:.5f} ..."`; the surrounding English of the
source message is abbreviated here, the numeric formatting is exact). -/
def offsetsMsg (apos bpos : ℚ) : String :=
  "The position of the left offset exceeds or is the same as that of " ++
    "the right offset. That is, " ++ fmt5 apos ++ " >= " ++ fmt5 bpos ++ "."

/-- `d[key]` on a Python dictionary: the value, or a `KeyError`. -/
def getItem (d : Dict) (key : String) : Except Err PyVal :=
  match d.lookup key with
  | some v => .ok v
  | none => .error (.keyNotFound key)

/-- `configuration[key]` where `configuration` is any value: only ever
reached after `_validate_general` has established it is a dictionary. -/
def pyGet (v : PyVal) (key : String) : Except Err PyVal :=
  match v with
  | .vDict d => getItem d key
  | _ => .error (.keyNotFound key)

/-- The items of a value known to be a dictionary (junk `[]` otherwise;
every use site is behind the schema check). -/
def asDict (v : PyVal) : Dict :=
  match v with
  | .vDict d => d
  | _ => []

/-- `v[i]` on a Python list (junk `None` out of range; every use site
is behind a length check). -/
def pyIndex (v : PyVal) (i : Nat) : PyVal :=
  match v with
  | .vList xs => xs.getD i .vNone
  | _ => .vNone

/-- Modelled from the spec:
`latexlattices.validate.validate_properties.validate_real_positive`.
The module `latexlattices/validate/validate_properties.py` is not among
the source files (only its caller survives); per spec section 4.1 a
type+sign check raises a `TypeMismatch` when the type check fails and a
`ValueOutOfRange` when the type is correct but the sign/zero policy
fails, and in query mode returns the boolean instead. -/
def validate_real_positive (value : PyVal) (zero : Bool) (name : String)
    (texcept : Bool) : Except Err Bool :=
  if !(isinstance value [.tFloat, .tInt]) then
    if texcept then .error (.realTypeMismatch name) else .ok false
  else if !(if zero then decide ((0 : ℚ) ≤ value.toQ)
            else decide ((0 : ℚ) < value.toQ)) then
    if texcept then .error (.realOutOfRange name) else .ok false
  else .ok true

/-- Modelled from the spec:
`latexlattices.validate.validate_properties.validate_int_positive`,
absent from the source files; same dual-mode type+sign contract as
`validate_real_positive`, with expected type `int`. -/
def validate_int_positive (value : PyVal) (zero : Bool) (name : String)
    (texcept : Bool) : Except Err Bool :=
  if !(isinstance value [.tInt]) then
    if texcept then .error (.intTypeMismatch name) else .ok false
  else if !(if zero then decide ((0 : ℚ) ≤ value.toQ)
            else decide ((0 : ℚ) < value.toQ)) then
    if texcept then .error (.intOutOfRange name) else .ok false
  else .ok true

/-- Modelled from the spec:
`latexlattices.validate.validate_properties.validate_bool`, absent from
the source files; a pure type check against `bool`. -/
def validate_bool (value : PyVal) (name : String) (texcept : Bool) :
    Except Err Bool :=
  if isinstance value [.tBool] then .ok true
  else if texcept then .error (.boolTypeMismatch name) else .ok false

/-- Modelled from the spec:
`latexlattices.validate.validate_properties.validate_list`, absent from
the source files (spec section 4.2, and its sibling
`src/validate/validate_properties.py` shows the same contract): the
value must be a list, a non-empty list has every element checked by
`isinstance` against `dtype` (`none` stands for `typing.Any`, the
unconstrained element type used for `jumping`), and when `length > -1`
the list's length must equal it; empty lists bypass the element-type
check. -/
def validate_list (value : PyVal) (dtype : Option TypeSpec) (length : Int)
    (name : String) (texcept : Bool) : Except Err Bool :=
  match value with
  | .vList xs =>
    let tyok :=
      match dtype with
      | none => true
      | some tys => xs.isEmpty || xs.all fun x => isinstance x tys
    let lenok := decide (length ≤ -1) || decide ((xs.length : Int) = length)
    if tyok && lenok then .ok true
    else if texcept then .error (.listInvalid name) else .ok false
  | _ => if texcept then .error (.listInvalid name) else .ok false

/-- `_validate_params_box` of
`latexlattices/lattices/oned_sticks/parameters.py`: `position_top` is a
2-element numeric list, `height` and `width` strictly positive reals. -/
def _validate_params_box (box : Dict) : Except Err Unit := do
  let pt ← getItem box "position_top"
  let h ← getItem box "height"
  let w ← getItem box "width"
  _ ← validate_list pt (some [.tInt, .tFloat]) 2 "box position_top" true
  _ ← validate_real_positive h false "box height" true
  _ ← validate_real_positive w false "box width" true
  return ()

/-- `_validate_params_box_label` of
`latexlattices/lattices/oned_sticks/parameters.py`: `height` and
`width` are positive reals with zero permitted, and each must not
exceed the corresponding box dimension. -/
def _validate_params_box_label (box boxLabels : Dict) : Except Err Unit := do
  let lh ← getItem boxLabels "height"
  let lw ← getItem boxLabels "width"
  _ ← validate_real_positive lh true "box_labels height" true
  _ ← validate_real_positive lw true "box_labels width" true
  let bh ← getItem box "height"
  if lh.toQ > bh.toQ then
    throw (.labelTooLarge "height" bh.toQ lh.toQ)
  let bw ← getItem box "width"
  if lw.toQ > bw.toQ then
    throw (.labelTooLarge "width" bw.toQ lw.toQ)
  return ()

/-- One iteration of the loop of `_validate_params_lattice` requiring
every entry of a 2-element list to be a positive-or-zero real (query
mode `validate_real_positive` under `all`).  The Python iterates a set
literal whose order is unspecified; the embedding runs it at each key
in a fixed order. -/
def latticeEntriesCheck (key : String) (v : PyVal) : Except Err Unit :=
  let xs := match v with | .vList xs => xs | _ => []
  if xs.all fun x =>
      match validate_real_positive x true "" false with
      | .ok b => b
      | .error _ => false then
    .ok ()
  else .error (.latticeEntriesNegative key)

/-- `_validate_params_lattice` of
`latexlattices/lattices/oned_sticks/parameters.py`: field checks, the
nonnegative-entries loop, then the three geometric ordering checks in
source order. -/
def _validate_params_lattice (box lattice : Dict) : Except Err Unit := do
  let offs ← getItem lattice "offsets"
  let pend ← getItem lattice "position_end"
  let pstr ← getItem lattice "position_start"
  let vs ← getItem lattice "vertical_spacing"
  _ ← validate_list offs (some [.tInt, .tFloat]) 2 "lattice offsets" true
  _ ← validate_list pend (some [.tInt, .tFloat]) 2 "lattice position_end" true
  _ ← validate_list pstr (some [.tInt, .tFloat]) 2 "lattice position_start" true
  _ ← validate_real_positive vs false "lattice vertical_spacing" true
  latticeEntriesCheck "offsets" offs
  latticeEntriesCheck "position_end" pend
  latticeEntriesCheck "position_start" pstr
  let w ← getItem box "width"
  let psx := (pyIndex pstr 0).toQ
  let pex := (pyIndex pend 0).toQ
  if !(decide (0 ≤ psx) && decide (psx < pex) && decide (pex ≤ w.toQ)) then
    throw (.geometryX psx pex w.toQ)
  let h ← getItem box "height"
  let psy := (pyIndex pstr 1).toQ
  let pey := (pyIndex pend 1).toQ
  if !(decide (0 ≤ psy) && decide (psy = pey) && decide (pey ≤ h.toQ)) then
    throw (.geometryY psy pey h.toQ)
  let apos := psx + (pyIndex offs 0).toQ
  let bpos := pex - (pyIndex offs 1).toQ
  if apos ≥ bpos then
    throw (.geometryOffsets (offsetsMsg apos bpos))
  return ()

/-- `_validate_params_lattice_elements` of
`latexlattices/lattices/oned_sticks/parameters.py`: three strictly
positive reals and one boolean. -/
def _validate_params_lattice_elements (elements : Dict) : Except Err Unit := do
  let ah ← getItem elements "arrow_height"
  let cr ← getItem elements "circle_radius"
  let th ← getItem elements "tick_height"
  let vv ← getItem elements "vacancies_visible"
  _ ← validate_real_positive ah false "elements arrow_height" true
  _ ← validate_real_positive cr false "elements circle_radius" true
  _ ← validate_real_positive th false "elements tick_height" true
  _ ← validate_bool vv "elements vacancies_visible" true
  return ()

/-- One iteration of the occupancy loop of
`_validate_params_lattice_parameters`: an empty list is skipped,
otherwise every value must lie in `[0, nticks)` (else the
`ValueOutOfRange` raise) and the values must be pairwise distinct under
Python equality — `len(set(xs)) == len(xs)`, modelled through the
numeric value — (else the `UniquenessViolation` raise).  The Python
iterates a set literal of the three keys whose order is unspecified;
the embedding runs the keys in a fixed order. -/
def occupancyCheck (key : String) (v : PyVal) (nticks : ℚ) :
    Except Err Unit :=
  let xs := match v with | .vList l => l | _ => []
  if xs.length = 0 then .ok ()
  else if !(xs.all fun x => decide (0 ≤ x.toQ) && decide (x.toQ < nticks)) then
    .error (.paramOutOfRange key)
  else if !((xs.map PyVal.toQ).dedup.length = xs.length : Bool) then
    .error (.paramNotUnique key)
  else .ok ()

/-- `_validate_params_lattice_parameters` of
`latexlattices/lattices/oned_sticks/parameters.py`: field checks,
`nmers <= nticks`, then the occupancy loop over `adsorbing`,
`desorbing`, `fixed`. -/
def _validate_params_lattice_parameters (parameters : Dict) :
    Except Err Unit := do
  let nmers ← getItem parameters "nmers"
  let nticks ← getItem parameters "nticks"
  let ads ← getItem parameters "adsorbing"
  let des ← getItem parameters "desorbing"
  let fxd ← getItem parameters "fixed"
  let jmp ← getItem parameters "jumping"
  _ ← validate_int_positive nmers false "lattice_parameters nmers" true
  _ ← validate_int_positive nticks false "lattice_parameters nticks" true
  _ ← validate_list ads (some [.tInt]) (-1) "lattice_parameters adsorbing" true
  _ ← validate_list des (some [.tInt]) (-1) "lattice_parameters desorbing" true
  _ ← validate_list fxd (some [.tInt]) (-1) "lattice_parameters fixed" true
  _ ← validate_list jmp none (-1) "lattice_parameters jumping" true
  if nmers.toQ > nticks.toQ then
    throw (.nmersExceedNticks nticks.toQ nmers.toQ)
  occupancyCheck "adsorbing" ads nticks.toQ
  occupancyCheck "desorbing" des nticks.toQ
  occupancyCheck "fixed" fxd nticks.toQ

/-- `validate` of `latexlattices/lattices/oned_sticks/parameters.py`:
the schema check, then the five section checks in source order, each
section extracted by subscript at its call site. -/
def validate (configuration : PyVal) : Except Err Unit := do
  _validate_general configuration
  _validate_params_box (asDict (← pyGet configuration "box"))
  _validate_params_box_label (asDict (← pyGet configuration "box"))
    (asDict (← pyGet configuration "box_label"))
  _validate_params_lattice (asDict (← pyGet configuration "box"))
    (asDict (← pyGet configuration "lattice"))
  _validate_params_lattice_elements
    (asDict (← pyGet configuration "lattice_elements"))
  _validate_params_lattice_parameters
    (asDict (← pyGet configuration "lattice_parameters"))

/-- The six checks `validate` performs, in order: the schema check and
the five section checks (each including its subscript extraction, as at
its call site in `validate`). -/
def checks (cfg : PyVal) : List (Except Err Unit) :=
  [ _validate_general cfg,
    do _validate_params_box (asDict (← pyGet cfg "box")),
    do _validate_params_box_label (asDict (← pyGet cfg "box"))
        (asDict (← pyGet cfg "box_label")),
    do _validate_params_lattice (asDict (← pyGet cfg "box"))
        (asDict (← pyGet cfg "lattice")),
    do _validate_params_lattice_elements
        (asDict (← pyGet cfg "lattice_elements")),
    do _validate_params_lattice_parameters
        (asDict (← pyGet cfg "lattice_parameters")) ]

/-- Run a list of already-evaluated check results in order, stopping at
the first failure. -/
def seqRun : List (Except Err Unit) → Except Err Unit
  | [] => .ok ()
  | r :: rs =>
    match r with
    | .ok _ => seqRun rs
    | .error e => .error e

namespace VGeneral

/-- `validate_type` of `src/latexlattices/validate/validate_general.py`:
`isinstance` check with the dual-mode contract. -/
def validate_type (value : PyVal) (dtype : TypeSpec) (texcept : Bool) :
    Except Err Bool :=
  let flag := isinstance value dtype
  if !flag && texcept then .error .scalarTypeMismatch else .ok flag

/-- `validate_type_positive` of
`src/latexlattices/validate/validate_general.py`: the type check first
(whose raise-mode failure propagates, and whose query-mode failure
returns `false` at once), then the sign check, strict for
`zero = false` and non-strict for `zero = true`, raising a
`ValueError` in raise mode. -/
def validate_type_positive (value : PyVal) (dtype : TypeSpec)
    (zero texcept : Bool) : Except Err Bool := do
  let flag ← validate_type value dtype texcept
  if !flag then return false
  let flag := flag &&
    (if zero then decide ((0 : ℚ) ≤ value.toQ)
     else decide ((0 : ℚ) < value.toQ))
  if !flag && texcept then .error .scalarNotPositive else return flag

/-- `validate_type_negative` of
`src/latexlattices/validate/validate_general.py`: symmetric to
`validate_type_positive` with the comparisons `< 0` / `<= 0`. -/
def validate_type_negative (value : PyVal) (dtype : TypeSpec)
    (zero texcept : Bool) : Except Err Bool := do
  let flag ← validate_type value dtype texcept
  if !flag then return false
  let flag := flag &&
    (if zero then decide (value.toQ ≤ (0 : ℚ))
     else decide (value.toQ < (0 : ℚ)))
  if !flag && texcept then .error .scalarNotNegative else return flag

end VGeneral

namespace VProps

/-- `validate_real_positve` of `src/validate/validate_properties.py`
(the source spells the name this way): type check, then sign check;
the function has a single raise site, a `TypeError`, used for both
failure modes, with a message naming whichever sub-check failed (the
two constructors `rpNotReal` and `rpNotPositive` stand for the two
message variants, and both carry exception class `TypeError`). -/
def validate_real_positve (value : PyVal) (zero texcept : Bool) :
    Except Err Bool :=
  let tyflag := isinstance value [.tInt, .tFloat]
  if !tyflag then
    if texcept then .error .rpNotReal else .ok false
  else
    let sflag :=
      if zero then decide ((0 : ℚ) ≤ value.toQ)
      else decide ((0 : ℚ) < value.toQ)
    if !sflag then
      if texcept then .error .rpNotPositive else .ok false
    else .ok true

end VProps

/-- The numpy dtypes relevant to the array validators. -/
inductive NpDType
  | int64
  | float64
  | boolDt
  deriving DecidableEq, Repr

/-- A one-dimensional numpy array: its dtype and its elements (numeric
values modelled as rationals). -/
structure NDArray1 where
  dtype : NpDType
  data : List ℚ

/-- A two-dimensional numpy array: its rows, all of the same length
`ncols` (numpy arrays are rectangular); `ncols` keeps the column count
meaningful also for a zero-row array of shape `(0, c)`. -/
structure NDArray2 where
  ncols : Nat
  rows : List (List ℚ)
  rect : rows.all (fun r => r.length == ncols) = true

namespace V1d

/-- `validate_ndarray` of `src/validate/validate_general_1d.py`: the
argument must be a numpy array of dimension one.  In the embedding the
argument type already confines inputs to one-dimensional arrays, so
both dynamic checks succeed. -/
def validate_ndarray (_array : NDArray1) (_texcept : Bool) :
    Except Err Bool :=
  .ok true

/-- `validate_type` of `src/validate/validate_general_1d.py`: a
one-dimensional array whose dtype equals the requested dtype. -/
def validate_type (array : NDArray1) (dtype : NpDType) (texcept : Bool) :
    Except Err Bool := do
  let flag ← validate_ndarray array texcept
  if !flag then return flag
  let flag := array.dtype == dtype
  if !flag && texcept then .error .arrDtypeMismatch else return flag

/-- `validate_type_positive` of `src/validate/validate_general_1d.py`:
the dtype check, then `np.all(array >= 0)` for `zero = true` and
`np.all(array > 0)` for `zero = false`. -/
def validate_type_positive (array : NDArray1) (dtype : NpDType)
    (zero texcept : Bool) : Except Err Bool := do
  let flag ← validate_type array dtype texcept
  if !flag then return flag
  let flag := flag && array.data.all fun x =>
    if zero then decide ((0 : ℚ) ≤ x) else decide ((0 : ℚ) < x)
  if !flag && texcept then .error .arrNotPositive else return flag

/-- `validate_type_negative` of `src/validate/validate_general_1d.py`:
the dtype check, then `np.all(array <= 0)` / `np.all(array < 0)`. -/
def validate_type_negative (array : NDArray1) (dtype : NpDType)
    (zero texcept : Bool) : Except Err Bool := do
  let flag ← validate_type array dtype texcept
  if !flag then return flag
  let flag := flag && array.data.all fun x =>
    if zero then decide (x ≤ (0 : ℚ)) else decide (x < (0 : ℚ))
  if !flag && texcept then .error .arrNotNegative else return flag

/-- `validate_unique` of `src/validate/validate_general_1d.py`:
`len(np.unique(array)) == len(array)` — the number of distinct
elements equals the length. -/
def validate_unique (array : NDArray1) (texcept : Bool) :
    Except Err Bool := do
  let flag ← validate_ndarray array texcept
  if !flag then return flag
  let flag := array.data.dedup.length == array.data.length
  if !flag && texcept then .error .arrNotUnique else return flag

end V1d

namespace V2d

/-- `validate_ndarray` of `src/validate/validate_general_2d.py`: the
argument must be a numpy array of dimension two.  The embedding's
argument type already confines inputs to two-dimensional arrays (a
zero-row array of shape `(0, c)` included), so both dynamic checks
succeed. -/
def validate_ndarray (_array : NDArray2) (_texcept : Bool) :
    Except Err Bool :=
  .ok true

/-- The index pairs `(i, j)` with `i < j` whose rows compare
elementwise equal (rows of one array have equal length, so elementwise
equality under `np.all` is list equality), in the order the double
loop of the source visits them. -/
def dupRowPairs (rows : List (List ℚ)) : List (Nat × Nat) :=
  (List.range rows.length).flatMap fun i =>
    ((List.range rows.length).filter fun j =>
      decide (i < j) && decide (rows.getD i [] = rows.getD j [])).map
      fun j => (i, j)

/-- `validate_unique_rows` of `src/validate/validate_general_2d.py`:
pairwise comparison of all row pairs `i < j`; the raise carries every
offending pair. -/
def validate_unique_rows (array : NDArray2) (texcept : Bool) :
    Except Err Bool := do
  let flag ← validate_ndarray array texcept
  if !flag then return flag
  let rp := dupRowPairs array.rows
  if rp.isEmpty then return true
  else if texcept then .error (.rowsNotUnique rp) else return false

/-- `array[:, i]`: column `i` of the array, top to bottom (junk `0`
past a row's length; the callers index below `len(array[0])`, within
every row of a rectangular array). -/
def colAt (rows : List (List ℚ)) (i : Nat) : List ℚ :=
  rows.map fun r => r.getD i 0

/-- The index pairs `(i, j)` with `i < j` below `length` whose columns
compare elementwise equal, in the order the double loop of the source
visits them. -/
def dupColPairs (rows : List (List ℚ)) (length : Nat) : List (Nat × Nat) :=
  (List.range length).flatMap fun i =>
    ((List.range length).filter fun j =>
      decide (i < j) && decide (colAt rows i = colAt rows j)).map
      fun j => (i, j)

/-- `validate_unique_columns` of `src/validate/validate_general_2d.py`:
after the dimension check the source computes `length = len(array[0])`;
on a zero-row array `array[0]` raises an `IndexError` (in query mode
too), before any uniqueness logic.  Otherwise: pairwise comparison of
all column pairs `i < j`, the raise carrying every offending pair. -/
def validate_unique_columns (array : NDArray2) (texcept : Bool) :
    Except Err Bool := do
  let flag ← validate_ndarray array texcept
  if !flag then return flag
  match array.rows with
  | [] => .error .zeroRows
  | r0 :: _ =>
    let cp := dupColPairs array.rows r0.length
    if cp.isEmpty then return true
    else if texcept then .error (.colsNotUnique cp) else return false

end V2d

/-- A `box` section with the given `position_top` pair, height and
width. -/
def mkBox (pt1 pt2 h w : ℚ) : Dict :=
  [ ("position_top", .vList [.vFloat pt1, .vFloat pt2]),
    ("height", .vFloat h),
    ("width", .vFloat w) ]

/-- A `box_label` section. -/
def mkBoxLabel (h w : ℚ) : Dict :=
  [ ("height", .vFloat h), ("width", .vFloat w) ]

/-- A `lattice` section with offsets `(o1, o2)`, end point `(ex, ey)`,
start point `(sx, sy)` and vertical spacing `vs`, in the source's key
order. -/
def mkLattice (o1 o2 ex ey sx sy vs : ℚ) : Dict :=
  [ ("offsets", .vList [.vFloat o1, .vFloat o2]),
    ("position_end", .vList [.vFloat ex, .vFloat ey]),
    ("position_start", .vList [.vFloat sx, .vFloat sy]),
    ("vertical_spacing", .vFloat vs) ]

/-- A `lattice_elements` section. -/
def mkLatticeElements (ah cr th : ℚ) (vv : Bool) : Dict :=
  [ ("arrow_height", .vFloat ah),
    ("circle_radius", .vFloat cr),
    ("tick_height", .vFloat th),
    ("vacancies_visible", .vBool vv) ]

/-- A `lattice_parameters` section with integer `nmers`/`nticks` and
integer occupancy lists. -/
def mkLatticeParams (nmers nticks : Int) (ads des fxd : List Int)
    (jmp : List PyVal) : Dict :=
  [ ("nmers", .vInt nmers),
    ("nticks", .vInt nticks),
    ("adsorbing", .vList (ads.map PyVal.vInt)),
    ("desorbing", .vList (des.map PyVal.vInt)),
    ("fixed", .vList (fxd.map PyVal.vInt)),
    ("jumping", .vList jmp) ]

/-- A template-shaped configuration whose `nticks` leaf is the boolean
`True`: `isinstance(True, int)` holds in Python (`bool` is a subclass
of `int`), yet the runtime type `bool` is not a member of the declared
type set `(int,)`; every other leaf is well-typed. -/
def cfgBoolNticks : PyVal :=
  .vDict
    [ ("box", .vDict (mkBox 0 0 10 10)),
      ("box_label", .vDict (mkBoxLabel 1 1)),
      ("lattice", .vDict (mkLattice 1 1 10 1 0 1 1)),
      ("lattice_elements", .vDict (mkLatticeElements 1 1 1 true)),
      ("lattice_parameters", .vDict
        [ ("nmers", .vInt 1),
          ("nticks", .vBool true),
          ("adsorbing", .vList [.vInt 0, .vInt 4]),
          ("desorbing", .vList []),
          ("fixed", .vList []),
          ("jumping", .vList []) ]) ]

end ImgGen

namespace ImgGen

/-! ## Theorems -/

/-- The leaf loop of `_validate_general` succeeds exactly when every
leaf of the section passes `isinstance` against its declared type
set. -/
theorem checkLeafTypes_ok_iff (sec : String) (spec : List (String × TypeSpec))
    (d : Dict) :
    checkLeafTypes sec spec d = .ok () ↔
      (d.all fun q =>
        match spec.lookup q.1 with
        | none => false
        | some tys => isinstance q.2 tys) = true := by
  induction d with
  | nil => simp [checkLeafTypes]
  | cons p rest ih =>
    obtain ⟨key, v⟩ := p
    simp only [checkLeafTypes, List.all_cons]
    cases h : spec.lookup key with
    | none => simp [h]
    | some tys =>
      by_cases hi : isinstance v tys
      · simp [h, hi, ih]
      · simp [h, hi]

/-- The section loop of `_validate_general` succeeds exactly when every
section is a dictionary with the template section's key set whose
leaves all pass `isinstance`. -/
theorem checkSections_ok_iff (d : Dict) :
    checkSections d = .ok () ↔
      (d.all fun p =>
        match p.2 with
        | .vDict sub =>
          match TEMPLATE.lookup p.1 with
          | none => false
          | some spec =>
            keySetEq (dictKeys sub) (spec.map Prod.fst) &&
            sub.all fun q =>
              match spec.lookup q.1 with
              | none => false
              | some tys => isinstance q.2 tys
        | _ => false) = true := by
  induction d with
  | nil => simp [checkSections]
  | cons p rest ih =>
    obtain ⟨key, v⟩ := p
    simp only [checkSections, List.all_cons]
    cases v with
    | vDict sub =>
      cases h : TEMPLATE.lookup key with
      | none => simp [h]
      | some spec =>
        by_cases hk : keySetEq (dictKeys sub) (spec.map Prod.fst)
        · cases hc : checkLeafTypes key spec sub with
          | ok u =>
            have := (checkLeafTypes_ok_iff key spec sub).mp (by simp [hc])
            simp [h, hk, hc, ih, this]
          | error e =>
            have : ¬ checkLeafTypes key spec sub = .ok () := by simp [hc]
            rw [checkLeafTypes_ok_iff key spec sub] at this
            simp [h, hk, hc, Bool.not_eq_true] at this ⊢
            simp [this]
        · simp [h, hk]
    | vInt n => simp
    | vFloat q => simp
    | vBool b => simp
    | vStr s => simp
    | vList xs => simp
    | vNone => simp

/-! Evaluation lemmas for subscripts on the section builders (pure key
lookup, independent of the numeric leaf values). -/

theorem getItem_box_position_top (pt1 pt2 h w : ℚ) :
    getItem (mkBox pt1 pt2 h w) "position_top" =
      .ok (.vList [.vFloat pt1, .vFloat pt2]) := rfl

theorem getItem_box_height (pt1 pt2 h w : ℚ) :
    getItem (mkBox pt1 pt2 h w) "height" = .ok (.vFloat h) := rfl

theorem getItem_box_width (pt1 pt2 h w : ℚ) :
    getItem (mkBox pt1 pt2 h w) "width" = .ok (.vFloat w) := rfl

theorem getItem_label_height (h w : ℚ) :
    getItem (mkBoxLabel h w) "height" = .ok (.vFloat h) := rfl

theorem getItem_label_width (h w : ℚ) :
    getItem (mkBoxLabel h w) "width" = .ok (.vFloat w) := rfl

theorem getItem_lattice_offsets (o1 o2 ex ey sx sy vs : ℚ) :
    getItem (mkLattice o1 o2 ex ey sx sy vs) "offsets" =
      .ok (.vList [.vFloat o1, .vFloat o2]) := rfl

theorem getItem_lattice_position_end (o1 o2 ex ey sx sy vs : ℚ) :
    getItem (mkLattice o1 o2 ex ey sx sy vs) "position_end" =
      .ok (.vList [.vFloat ex, .vFloat ey]) := rfl

theorem getItem_lattice_position_start (o1 o2 ex ey sx sy vs : ℚ) :
    getItem (mkLattice o1 o2 ex ey sx sy vs) "position_start" =
      .ok (.vList [.vFloat sx, .vFloat sy]) := rfl

theorem getItem_lattice_vertical_spacing (o1 o2 ex ey sx sy vs : ℚ) :
    getItem (mkLattice o1 o2 ex ey sx sy vs) "vertical_spacing" =
      .ok (.vFloat vs) := rfl

theorem getItem_params_nmers (nm nt : Int) (ads des fxd : List Int)
    (jmp : List PyVal) :
    getItem (mkLatticeParams nm nt ads des fxd jmp) "nmers" =
      .ok (.vInt nm) := rfl

theorem getItem_params_nticks (nm nt : Int) (ads des fxd : List Int)
    (jmp : List PyVal) :
    getItem (mkLatticeParams nm nt ads des fxd jmp) "nticks" =
      .ok (.vInt nt) := rfl

theorem getItem_params_adsorbing (nm nt : Int) (ads des fxd : List Int)
    (jmp : List PyVal) :
    getItem (mkLatticeParams nm nt ads des fxd jmp) "adsorbing" =
      .ok (.vList (ads.map PyVal.vInt)) := rfl

theorem getItem_params_desorbing (nm nt : Int) (ads des fxd : List Int)
    (jmp : List PyVal) :
    getItem (mkLatticeParams nm nt ads des fxd jmp) "desorbing" =
      .ok (.vList (des.map PyVal.vInt)) := rfl

theorem getItem_params_fixed (nm nt : Int) (ads des fxd : List Int)
    (jmp : List PyVal) :
    getItem (mkLatticeParams nm nt ads des fxd jmp) "fixed" =
      .ok (.vList (fxd.map PyVal.vInt)) := rfl

theorem getItem_params_jumping (nm nt : Int) (ads des fxd : List Int)
    (jmp : List PyVal) :
    getItem (mkLatticeParams nm nt ads des fxd jmp) "jumping" =
      .ok (.vList jmp) := rfl

/-! Evaluation lemmas for the modelled primitive validators on
well-typed arguments. -/

theorem vrp_float_zero_ok (q : ℚ) (name : String) (hq : 0 ≤ q) :
    validate_real_positive (.vFloat q) true name true = .ok true := by
  simp [validate_real_positive, isinstance, PyVal.typeOf, PyType.instanceOf,
    PyVal.toQ, hq]

theorem vrp_float_strict_ok (q : ℚ) (name : String) (hq : 0 < q) :
    validate_real_positive (.vFloat q) false name true = .ok true := by
  simp [validate_real_positive, isinstance, PyVal.typeOf, PyType.instanceOf,
    PyVal.toQ, hq]

theorem vip_int_strict_ok (n : Int) (name : String) (hn : 0 < n) :
    validate_int_positive (.vInt n) false name true = .ok true := by
  simp [validate_int_positive, isinstance, PyVal.typeOf, PyType.instanceOf,
    PyVal.toQ]
  exact_mod_cast hn

theorem vlist_float_pair_ok (a b : ℚ) (name : String) :
    validate_list (.vList [.vFloat a, .vFloat b]) (some [.tInt, .tFloat]) 2
      name true = .ok true := rfl

theorem vlist_int_list_ok (l : List Int) (name : String) :
    validate_list (.vList (l.map PyVal.vInt)) (some [.tInt]) (-1) name true =
      .ok true := by
  cases l with
  | nil => rfl
  | cons x xs =>
    simp [validate_list, isinstance, PyVal.typeOf, PyType.instanceOf]

theorem vlist_any_ok (l : List PyVal) (name : String) :
    validate_list (.vList l) none (-1) name true = .ok true := rfl

end ImgGen

namespace ImgGen

/-- C1 (amended). For every value `C`, `_validate_general(C)` returns
normally iff `C` is a mapping, its top-level key set equals the
Template's, every top-level value is a mapping whose key set equals the
Template's second-level key set for that section, and every leaf value
is an `isinstance` of one of the Template-declared acceptable types —
Python `isinstance` semantics, under which a `bool` leaf is accepted
wherever `int` is declared. -/
theorem C1_schema_validation_iff_isinstance (d : PyVal) :
    _validate_general d = .ok () ↔ schemaOkayIsinstance d = true := by
  cases d with
  | vDict entries =>
    rw [_validate_general]
    by_cases hk : keySetEq (TEMPLATE.map Prod.fst) (dictKeys entries)
    · simp [hk, checkSections_ok_iff, schemaOkayIsinstance, schemaOkayWith]
    · simp [hk, schemaOkayIsinstance, schemaOkayWith]
  | vInt n => simp [_validate_general, schemaOkayIsinstance, schemaOkayWith]
  | vFloat q => simp [_validate_general, schemaOkayIsinstance, schemaOkayWith]
  | vBool b => simp [_validate_general, schemaOkayIsinstance, schemaOkayWith]
  | vStr s => simp [_validate_general, schemaOkayIsinstance, schemaOkayWith]
  | vList xs => simp [_validate_general, schemaOkayIsinstance, schemaOkayWith]
  | vNone => simp [_validate_general, schemaOkayIsinstance, schemaOkayWith]

/-- C1, counterexample to the claim as stated: on the configuration
whose `nticks` leaf is the boolean `True`, `_validate_general` returns
normally although the leaf's runtime type (`bool`) is not a member of
the declared acceptable type set (`int`): the claim's "returns normally
iff ... every leaf value's runtime type is a member of the declared
set" fails at this input. -/
theorem C1_runtime_type_reading_fails :
    _validate_general cfgBoolNticks = .ok () ∧
      schemaOkayRuntimeType cfgBoolNticks = false :=
  ⟨rfl, rfl⟩

/-- C7. For box dimensions `bh`, `bw` and nonnegative label dimensions
`lh`, `lw` (the zero values the section's own positivity check
permits), the box-label check returns normally iff `lh ≤ bh` and
`lw ≤ bw`; when `lh > bh` it raises the height `GeometryViolation`
carrying both values, and when `lh ≤ bh` but `lw > bw` the width one
carrying both values. -/
theorem C7_box_label_fits_box (bh bw lh lw pt1 pt2 : ℚ)
    (hlh : 0 ≤ lh) (hlw : 0 ≤ lw) :
    (_validate_params_box_label (mkBox pt1 pt2 bh bw) (mkBoxLabel lh lw) =
        .ok () ↔ lh ≤ bh ∧ lw ≤ bw) ∧
    (lh > bh →
      _validate_params_box_label (mkBox pt1 pt2 bh bw) (mkBoxLabel lh lw) =
        .error (.labelTooLarge "height" bh lh)) ∧
    (lh ≤ bh → lw > bw →
      _validate_params_box_label (mkBox pt1 pt2 bh bw) (mkBoxLabel lh lw) =
        .error (.labelTooLarge "width" bw lw)) := by
  rw [_validate_params_box_label]
  simp only [getItem_box_height, getItem_box_width, getItem_label_height,
    getItem_label_width, vrp_float_zero_ok _ _ hlh, vrp_float_zero_ok _ _ hlw,
    bind, Except.bind, pure, Except.pure, PyVal.toQ]
  by_cases h1 : lh > bh <;> by_cases h2 : lw > bw <;> simp [h1, h2] <;>
    first
      | linarith
      | (constructor <;> linarith)

/-- C7, witness: a 5-by-5 box accepts the zero-by-zero label (zero
permitted for both dimensions). -/
theorem C7_box_label_fits_box_witness :
    _validate_params_box_label (mkBox 0 0 5 5) (mkBoxLabel 0 0) = .ok () :=
  ((C7_box_label_fits_box 5 5 0 0 0 0 (le_refl 0) (le_refl 0)).1).mpr
    (by norm_num)

/-! Evaluation lemmas for the lattice section check. -/

theorem pyIndex_pair_zero (a b : ℚ) :
    pyIndex (.vList [.vFloat a, .vFloat b]) 0 = .vFloat a := rfl

theorem pyIndex_pair_one (a b : ℚ) :
    pyIndex (.vList [.vFloat a, .vFloat b]) 1 = .vFloat b := rfl

theorem latticeEntries_pair_ok (key : String) (a b : ℚ)
    (ha : 0 ≤ a) (hb : 0 ≤ b) :
    latticeEntriesCheck key (.vList [.vFloat a, .vFloat b]) = .ok () := by
  simp [latticeEntriesCheck, validate_real_positive, isinstance, PyVal.typeOf,
    PyType.instanceOf, PyVal.toQ, ha, hb, not_lt.mpr ha, not_lt.mpr hb]

/-- The offsets diagnostic contains both computed positions, each
rendered by the five-decimal fixed-point formatter. -/
theorem fmt5_in_offsetsMsg (a b : ℚ) :
    (fmt5 a).data <:+: (offsetsMsg a b).data ∧
      (fmt5 b).data <:+: (offsetsMsg a b).data := by
  constructor
  · refine ⟨(("The position of the left offset exceeds or is the same as " ++
      "that of the right offset. That is, ") : String).data,
      ((" >= " ++ fmt5 b ++ ".") : String).data, ?_⟩
    simp [offsetsMsg, String.data_append, List.append_assoc]
  · refine ⟨(("The position of the left offset exceeds or is the same as " ++
      "that of the right offset. That is, " ++ fmt5 a ++ " >= ") : String).data,
      (("." : String)).data, ?_⟩
    simp [offsetsMsg, String.data_append, List.append_assoc]

/-- C5. For a box of numeric width `w` and a lattice section whose
`position_start`/`position_end` are 2-element numeric pairs (with the
nonnegative entries and positive spacing the section's earlier checks
require), the lattice check raises the x-ordering `GeometryViolation`
exactly when `0 ≤ start.x < end.x ≤ w` fails (left and right bounds
inclusive, middle strict); with `w = 10`, `start.x = end.x = 5` raises
it, while `end.x = 10` at the right boundary passes the whole check. -/
theorem C5_lattice_x_ordering (w h o1 o2 ex ey sx sy vs pt1 pt2 : ℚ)
    (ho1 : 0 ≤ o1) (ho2 : 0 ≤ o2) (hex : 0 ≤ ex) (hey : 0 ≤ ey)
    (hsx : 0 ≤ sx) (hsy : 0 ≤ sy) (hvs : 0 < vs) :
    (_validate_params_lattice (mkBox pt1 pt2 h w)
        (mkLattice o1 o2 ex ey sx sy vs) =
        .error (.geometryX sx ex w) ↔ ¬(0 ≤ sx ∧ sx < ex ∧ ex ≤ w)) ∧
    (_validate_params_lattice (mkBox 0 0 10 10) (mkLattice 1 1 5 1 5 1 1) =
        .error (.geometryX 5 5 10)) ∧
    (_validate_params_lattice (mkBox 0 0 10 10) (mkLattice 1 1 10 1 0 1 1) =
        .ok ()) := by
  refine ⟨?_, ?_, ?_⟩
  · rw [_validate_params_lattice]
    simp only [getItem_lattice_offsets, getItem_lattice_position_end,
      getItem_lattice_position_start, getItem_lattice_vertical_spacing,
      getItem_box_width, getItem_box_height,
      vlist_float_pair_ok, vrp_float_strict_ok _ _ hvs,
      latticeEntries_pair_ok _ _ _ ho1 ho2,
      latticeEntries_pair_ok _ _ _ hex hey,
      latticeEntries_pair_ok _ _ _ hsx hsy,
      pyIndex_pair_zero, pyIndex_pair_one,
      bind, Except.bind, pure, Except.pure, PyVal.toQ]
    split_ifs with h1 h2 h3 <;> simp_all <;>
      (intro hlt
       rcases h1 with h | h
       · linarith
       · exact h)
  · rw [_validate_params_lattice]
    simp only [getItem_lattice_offsets, getItem_lattice_position_end,
      getItem_lattice_position_start, getItem_lattice_vertical_spacing,
      getItem_box_width, getItem_box_height,
      vlist_float_pair_ok, vrp_float_strict_ok 1 _ (by norm_num),
      latticeEntries_pair_ok _ _ _ (by norm_num : (0:ℚ) ≤ 1)
        (by norm_num : (0:ℚ) ≤ 1),
      latticeEntries_pair_ok _ _ _ (by norm_num : (0:ℚ) ≤ 5)
        (by norm_num : (0:ℚ) ≤ 1),
      pyIndex_pair_zero, pyIndex_pair_one,
      bind, Except.bind, pure, Except.pure, PyVal.toQ]
    norm_num
  · rw [_validate_params_lattice]
    simp only [getItem_lattice_offsets, getItem_lattice_position_end,
      getItem_lattice_position_start, getItem_lattice_vertical_spacing,
      getItem_box_width, getItem_box_height,
      vlist_float_pair_ok, vrp_float_strict_ok 1 _ (by norm_num),
      latticeEntries_pair_ok _ _ _ (by norm_num : (0:ℚ) ≤ 1)
        (by norm_num : (0:ℚ) ≤ 1),
      latticeEntries_pair_ok _ _ _ (by norm_num : (0:ℚ) ≤ 10)
        (by norm_num : (0:ℚ) ≤ 1),
      latticeEntries_pair_ok _ _ _ (by norm_num : (0:ℚ) ≤ 0)
        (by norm_num : (0:ℚ) ≤ 1),
      pyIndex_pair_zero, pyIndex_pair_one,
      bind, Except.bind, pure, Except.pure, PyVal.toQ]
    norm_num

/-- C5, witness: the boundary-inclusive success at `end.x = w = 10`,
obtained from the theorem at those concrete values. -/
theorem C5_lattice_x_ordering_witness :
    _validate_params_lattice (mkBox 0 0 10 10) (mkLattice 1 1 10 1 0 1 1) =
      .ok () :=
  (C5_lattice_x_ordering 10 10 1 1 10 1 0 1 1 0 0
    (by norm_num) (by norm_num) (by norm_num) (by norm_num)
    (by norm_num) (by norm_num) (by norm_num)).2.2

/-- C6. For a lattice section that passes every earlier field,
nonnegativity and baseline check, with `left = start.x + offsets[0]`
and `right = end.x - offsets[1]`, the lattice check raises the
offsets `GeometryViolation` exactly when `left ≥ right`, and its
diagnostic message contains both computed values formatted to five
decimal places (`fmt5`, with `fmt5 5 = "5.00000"` as a concrete
shape of that formatting). -/
theorem C6_lattice_offsets_margin (w h o1 o2 ex ey sx sy vs pt1 pt2 : ℚ)
    (ho1 : 0 ≤ o1) (ho2 : 0 ≤ o2) (hex : 0 ≤ ex) (hey : 0 ≤ ey)
    (hsx : 0 ≤ sx) (hsy : 0 ≤ sy) (hvs : 0 < vs)
    (hx : sx < ex ∧ ex ≤ w) (hy : sy = ey ∧ ey ≤ h) :
    (_validate_params_lattice (mkBox pt1 pt2 h w)
        (mkLattice o1 o2 ex ey sx sy vs) =
        .error (.geometryOffsets (offsetsMsg (sx + o1) (ex - o2))) ↔
      sx + o1 ≥ ex - o2) ∧
    (sx + o1 < ex - o2 →
      _validate_params_lattice (mkBox pt1 pt2 h w)
        (mkLattice o1 o2 ex ey sx sy vs) = .ok ()) ∧
    ((fmt5 (sx + o1)).data <:+: (offsetsMsg (sx + o1) (ex - o2)).data ∧
      (fmt5 (ex - o2)).data <:+: (offsetsMsg (sx + o1) (ex - o2)).data) ∧
    fmt5 (5 : ℚ) = "5.00000" := by
  refine ⟨?_, ?_, fmt5_in_offsetsMsg _ _, ?_⟩
  · rw [_validate_params_lattice]
    simp only [getItem_lattice_offsets, getItem_lattice_position_end,
      getItem_lattice_position_start, getItem_lattice_vertical_spacing,
      getItem_box_width, getItem_box_height,
      vlist_float_pair_ok, vrp_float_strict_ok _ _ hvs,
      latticeEntries_pair_ok _ _ _ ho1 ho2,
      latticeEntries_pair_ok _ _ _ hex hey,
      latticeEntries_pair_ok _ _ _ hsx hsy,
      pyIndex_pair_zero, pyIndex_pair_one,
      bind, Except.bind, pure, Except.pure, PyVal.toQ]
    simp only [hsx, hx.1, hx.2, hsy, hy.1, hy.2, decide_eq_true_eq, le_refl]
    split_ifs with hoff <;> simp_all
  · rw [_validate_params_lattice]
    simp only [getItem_lattice_offsets, getItem_lattice_position_end,
      getItem_lattice_position_start, getItem_lattice_vertical_spacing,
      getItem_box_width, getItem_box_height,
      vlist_float_pair_ok, vrp_float_strict_ok _ _ hvs,
      latticeEntries_pair_ok _ _ _ ho1 ho2,
      latticeEntries_pair_ok _ _ _ hex hey,
      latticeEntries_pair_ok _ _ _ hsx hsy,
      pyIndex_pair_zero, pyIndex_pair_one,
      bind, Except.bind, pure, Except.pure, PyVal.toQ]
    simp only [hsx, hx.1, hx.2, hsy, hy.1, hy.2, decide_eq_true_eq, le_refl]
    intro hlt
    split_ifs with hoff <;> simp_all <;> linarith
  · have h1 : (5 : ℚ) * 100000 = 500000 := by norm_num
    have h2 : roundHalfEven 500000 = 500000 := by norm_num [roundHalfEven]
    simp [fmt5, h1, h2]
    rfl

/-- C6, witness: with start.x = 0, end.x = 10 and offsets 5 and 5 the
computed left and right positions coincide and the offsets
`GeometryViolation` is raised with both values in the diagnostic. -/
theorem C6_lattice_offsets_margin_witness :
    _validate_params_lattice (mkBox 0 0 10 10) (mkLattice 5 5 10 1 0 1 1) =
      .error (.geometryOffsets (offsetsMsg (0 + 5) (10 - 5))) :=
  ((C6_lattice_offsets_margin 10 10 5 5 10 1 0 1 1 0 0
    (by norm_num) (by norm_num) (by norm_num) (by norm_num)
    (by norm_num) (by norm_num) (by norm_num)
    ⟨by norm_num, by norm_num⟩ ⟨rfl, by norm_num⟩).1).mpr (by norm_num)

/-- A list keeps its length under `dedup` exactly when it has no
duplicates. -/
theorem dedup_length_eq_iff {α : Type} [DecidableEq α] (l : List α) :
    l.dedup.length = l.length ↔ l.Nodup := by
  constructor
  · intro h
    rw [← List.dedup_eq_self]
    exact (List.dedup_sublist l).eq_of_length h
  · intro h
    rw [List.dedup_eq_self.mpr h]

/-- One occupancy-loop iteration on an integer list: skipped when
empty, the `ValueOutOfRange` raise unless every value lies in
`[0, nticks)`, then the `UniquenessViolation` raise unless the values
are pairwise distinct. -/
theorem occupancyCheck_int_eval (key : String) (l : List Int) (n : Int) :
    occupancyCheck key (.vList (l.map PyVal.vInt)) ((n : Int) : ℚ) =
      (if l = [] then .ok ()
       else if ¬(∀ x ∈ l, 0 ≤ x ∧ x < n) then .error (.paramOutOfRange key)
       else if ¬ l.Nodup then .error (.paramNotUnique key)
       else .ok ()) := by
  have hall : ((l.map PyVal.vInt).all fun x =>
      decide (0 ≤ x.toQ) && decide (x.toQ < ((n : Int) : ℚ))) = true ↔
      (∀ x ∈ l, 0 ≤ x ∧ x < n) := by
    simp [List.all_map, Function.comp, PyVal.toQ]
  have hnd : ((List.map (PyVal.toQ ∘ PyVal.vInt) l).dedup.length = l.length) ↔
      l.Nodup := by
    have hm : List.map (PyVal.toQ ∘ PyVal.vInt) l =
        List.map (fun i => ((i : Int) : ℚ)) l := by
      simp [Function.comp, PyVal.toQ]
    rw [hm, ← List.length_map l (fun i => ((i : Int) : ℚ)), dedup_length_eq_iff]
    exact List.nodup_map_iff (fun a b hab => by exact_mod_cast hab)
  rw [occupancyCheck]
  by_cases h0 : l = []
  · subst h0; simp
  · have hlen : ¬ ((l.map PyVal.vInt).length = 0) := by simpa using h0
    by_cases h1 : ∀ x ∈ l, 0 ≤ x ∧ x < n
    · have hex : ¬ ∃ x ∈ l, 0 ≤ x → n ≤ x := by
        rintro ⟨x, hx, hi⟩
        rcases h1 x hx with ⟨hge, hlt⟩
        exact absurd (hi hge) (not_le.mpr hlt)
      by_cases h2 : l.Nodup
      · simp [hlen, hall.mpr h1, hnd.mpr h2, h0, hex, h2]
      · have hd : ¬ ((List.map (PyVal.toQ ∘ PyVal.vInt) l).dedup.length =
            l.length) := fun hc => absurd (hnd.mp hc) h2
        simp [hlen, hall.mpr h1, h0, hex, hd, h2]
    · have hna : ¬ (((l.map PyVal.vInt).all fun x =>
          decide (0 ≤ x.toQ) && decide (x.toQ < ((n : Int) : ℚ))) = true) :=
        fun hc => absurd (hall.mp hc) h1
      have hex : ∃ x ∈ l, 0 ≤ x → n ≤ x := by
        push_neg at h1
        obtain ⟨x, hx, hcon⟩ := h1
        exact ⟨x, hx, hcon⟩
      simp [hlen, h0, hna, hex]

/-- C3. For strictly positive integers `nmers ≤ nticks` and integer
occupancy lists, the lattice-parameters check reduces to the three
occupancy-loop iterations over `adsorbing`, `desorbing`, `fixed` in
sequence; each iteration is skipped when its list is empty, raises
`ValueOutOfRange` unless every value lies in `[0, nticks)`, and then
raises `UniquenessViolation` unless the values are pairwise distinct.
With `nticks = 5`: `adsorbing = [0, 4]` succeeds, `[5]` raises
`ValueOutOfRange`, `[1, 1]` raises `UniquenessViolation`. -/
theorem C3_occupancy_bounds_and_uniqueness (nm nt : Int)
    (ads des fxd : List Int) (jmp : List PyVal)
    (h1 : 0 < nm) (h2 : 0 < nt) (h3 : nm ≤ nt) :
    (_validate_params_lattice_parameters (mkLatticeParams nm nt ads des fxd jmp) =
      seqRun
        [occupancyCheck "adsorbing" (.vList (ads.map PyVal.vInt)) ((nt : Int) : ℚ),
         occupancyCheck "desorbing" (.vList (des.map PyVal.vInt)) ((nt : Int) : ℚ),
         occupancyCheck "fixed" (.vList (fxd.map PyVal.vInt)) ((nt : Int) : ℚ)]) ∧
    (∀ (key : String) (l : List Int) (k : Int),
      occupancyCheck key (.vList (l.map PyVal.vInt)) ((k : Int) : ℚ) =
        (if l = [] then .ok ()
         else if ¬(∀ x ∈ l, 0 ≤ x ∧ x < k) then .error (.paramOutOfRange key)
         else if ¬ l.Nodup then .error (.paramNotUnique key)
         else .ok ())) ∧
    (_validate_params_lattice_parameters (mkLatticeParams 1 5 [0, 4] [] [] []) =
      .ok ()) ∧
    (_validate_params_lattice_parameters (mkLatticeParams 1 5 [5] [] [] []) =
      .error (.paramOutOfRange "adsorbing")) ∧
    (_validate_params_lattice_parameters (mkLatticeParams 1 5 [1, 1] [] [] []) =
      .error (.paramNotUnique "adsorbing")) := by
  refine ⟨?_, fun key l k => occupancyCheck_int_eval key l k, rfl, rfl, rfl⟩
  have hng : ¬ (((nm : Int) : ℚ) > ((nt : Int) : ℚ)) := by
    rw [not_lt]
    exact_mod_cast h3
  rw [_validate_params_lattice_parameters]
  simp only [getItem_params_nmers, getItem_params_nticks, getItem_params_adsorbing,
    getItem_params_desorbing, getItem_params_fixed, getItem_params_jumping,
    vip_int_strict_ok _ _ h1, vip_int_strict_ok _ _ h2,
    vlist_int_list_ok, vlist_any_ok,
    bind, Except.bind, pure, Except.pure, PyVal.toQ]
  rw [if_neg hng]
  cases hA : occupancyCheck "adsorbing" (.vList (ads.map PyVal.vInt))
      ((nt : Int) : ℚ) with
  | error e => simp [seqRun, hA]
  | ok u =>
    cases u
    simp only [seqRun, hA]
    cases hB : occupancyCheck "desorbing" (.vList (des.map PyVal.vInt))
        ((nt : Int) : ℚ) with
    | error e => simp [seqRun, hB]
    | ok u =>
      cases u
      simp only [seqRun, hB]
      cases hC : occupancyCheck "fixed" (.vList (fxd.map PyVal.vInt))
          ((nt : Int) : ℚ) with
      | error e => simp [seqRun, hC]
      | ok u => cases u; simp [seqRun, hC]

/-- C3, witness: the theorem at `nmers = 1`, `nticks = 5`,
`adsorbing = [0, 4]`, the other lists empty. -/
theorem C3_occupancy_bounds_and_uniqueness_witness :
    _validate_params_lattice_parameters (mkLatticeParams 1 5 [0, 4] [] [] []) =
      .ok () :=
  (C3_occupancy_bounds_and_uniqueness 1 5 [0, 4] [] [] []
    (by norm_num) (by norm_num) (by norm_num)).2.2.1

/-- The first-failure characterization of `seqRun`: success means every
check passed. -/
theorem seqRun_ok_iff (l : List (Except Err Unit)) :
    seqRun l = .ok () ↔ ∀ r ∈ l, r = .ok () := by
  induction l with
  | nil => simp [seqRun]
  | cons r rs ih =>
    cases r with
    | ok u => cases u; simp [seqRun, ih]
    | error e => simp [seqRun]

/-- The first-failure characterization of `seqRun`: an error is the
error of the first failing entry, every earlier entry having passed. -/
theorem seqRun_error_iff (l : List (Except Err Unit)) (e : Err) :
    seqRun l = .error e ↔
      ∃ l1 l2, l = l1 ++ .error e :: l2 ∧ ∀ r ∈ l1, r = .ok () := by
  induction l with
  | nil =>
    simp only [seqRun]
    constructor
    · intro h; exact absurd h (by simp)
    · rintro ⟨l1, l2, h1, -⟩
      exact absurd h1 (by simp)
  | cons r rs ih =>
    cases r with
    | ok u =>
      cases u
      simp only [seqRun, ih]
      constructor
      · rintro ⟨l1, l2, h1, h2⟩
        refine ⟨.ok () :: l1, l2, by simp [h1], ?_⟩
        intro r hr
        rcases List.mem_cons.mp hr with h | h
        · exact h
        · exact h2 r h
      · rintro ⟨l1, l2, h1, h2⟩
        cases l1 with
        | nil => simp at h1
        | cons a l1' =>
          simp only [List.cons_append, List.cons.injEq] at h1
          refine ⟨l1', l2, h1.2, fun r hr => h2 r (List.mem_cons_of_mem a hr)⟩
    | error e' =>
      simp only [seqRun]
      constructor
      · intro h
        refine ⟨[], rs, ?_, by simp⟩
        simp only [Except.error.injEq] at h
        simp [h]
      · rintro ⟨l1, l2, h1, h2⟩
        cases l1 with
        | nil =>
          simp only [List.nil_append, List.cons.injEq] at h1
          simp [h1.1]
        | cons a l1' =>
          have ha : a = .ok () := h2 a (List.mem_cons_self a l1')
          simp only [List.cons_append, List.cons.injEq] at h1
          rw [← h1.1] at ha
          exact absurd ha (by simp)

/-- `validate` equals running its six checks in order with early
exit. -/
theorem validate_eq_seqRun (cfg : PyVal) : validate cfg = seqRun (checks cfg) := by
  rw [validate, checks]
  cases h0 : _validate_general cfg with
  | error e => simp [seqRun, h0, bind, Except.bind]
  | ok u =>
    cases u
    simp only [seqRun, h0, bind, Except.bind]
    cases h1 : pyGet cfg "box" with
    | error e => simp [seqRun, h1, bind, Except.bind]
    | ok vbox =>
      simp only [seqRun, h1, bind, Except.bind]
      cases h2 : _validate_params_box (asDict vbox) with
      | error e => simp [seqRun, h2, bind, Except.bind]
      | ok u =>
        cases u
        simp only [seqRun, h2, bind, Except.bind]
        cases h3 : pyGet cfg "box_label" with
        | error e => simp [seqRun, h3, bind, Except.bind]
        | ok vlbl =>
          simp only [seqRun, h3, bind, Except.bind]
          cases h4 : _validate_params_box_label (asDict vbox) (asDict vlbl) with
          | error e => simp [seqRun, h4, bind, Except.bind]
          | ok u =>
            cases u
            simp only [seqRun, h4, bind, Except.bind]
            cases h5 : pyGet cfg "lattice" with
            | error e => simp [seqRun, h5, bind, Except.bind]
            | ok vlat =>
              simp only [seqRun, h5, bind, Except.bind]
              cases h6 : _validate_params_lattice (asDict vbox) (asDict vlat) with
              | error e => simp [seqRun, h6, bind, Except.bind]
              | ok u =>
                cases u
                simp only [seqRun, h6, bind, Except.bind]
                cases h7 : pyGet cfg "lattice_elements" with
                | error e => simp [seqRun, h7, bind, Except.bind]
                | ok vels =>
                  simp only [seqRun, h7, bind, Except.bind]
                  cases h8 : _validate_params_lattice_elements (asDict vels) with
                  | error e => simp [seqRun, h8, bind, Except.bind]
                  | ok u =>
                    cases u
                    simp only [seqRun, h8, bind, Except.bind]
                    cases h9 : pyGet cfg "lattice_parameters" with
                    | error e => simp [seqRun, h9, bind, Except.bind]
                    | ok vpar =>
                      simp only [seqRun, h9, bind, Except.bind]
                      cases h10 : _validate_params_lattice_parameters (asDict vpar) with
                      | error e => simp [seqRun, h10]
                      | ok u => cases u; simp [seqRun, h10]

/-- C2. `validate` performs the schema check and then the five section
checks in the order box, box-label, lattice, lattice-elements,
lattice-parameters (the order of the `checks` list), fail-fast: it
returns normally iff every check passes, and it raises `e` iff `e` is
the error of the first failing check, every check before it in the
order having passed — so no later check's failure is ever reported once
an earlier one has raised. -/
theorem C2_validate_fail_fast (cfg : PyVal) :
    (validate cfg = .ok () ↔ ∀ r ∈ checks cfg, r = .ok ()) ∧
    (∀ e : Err, validate cfg = .error e ↔
      ∃ l1 l2, checks cfg = l1 ++ .error e :: l2 ∧ ∀ r ∈ l1, r = .ok ()) := by
  constructor
  · rw [validate_eq_seqRun]
    exact seqRun_ok_iff _
  · intro e
    rw [validate_eq_seqRun]
    exact seqRun_error_iff _ e

/-- C4. For a numeric scalar `v` with value `x`, the scalar sign
validators of `validate_general.py` return `True` iff `x > 0`
(`zero = false`) or `x ≥ 0` (`zero = true`), symmetrically `x < 0` /
`x ≤ 0` for the negative validator, in query and in raise mode alike;
the 1-D array sign validators apply the identical strict/non-strict
comparison elementwise, requiring every element to satisfy it. -/
theorem C4_sign_validators (v : PyVal) (x : ℚ)
    (hv : isinstance v [.tInt, .tFloat] = true) (hx : v.toQ = x)
    (zero texcept : Bool) (a : NDArray1) (dt : NpDType)
    (hdt : a.dtype = dt) :
    (VGeneral.validate_type_positive v [.tInt, .tFloat] zero texcept =
        .ok true ↔ (if zero then 0 ≤ x else 0 < x)) ∧
    (VGeneral.validate_type_negative v [.tInt, .tFloat] zero texcept =
        .ok true ↔ (if zero then x ≤ 0 else x < 0)) ∧
    (V1d.validate_type_positive a dt zero texcept = .ok true ↔
      ∀ y ∈ a.data, (if zero then 0 ≤ y else 0 < y)) ∧
    (V1d.validate_type_negative a dt zero texcept = .ok true ↔
      ∀ y ∈ a.data, (if zero then y ≤ 0 else y < 0)) := by
  have ht : VGeneral.validate_type v [.tInt, .tFloat] texcept = .ok true := by
    simp [VGeneral.validate_type, hv]
  have ht1 : V1d.validate_type a dt texcept = .ok true := by
    simp [V1d.validate_type, V1d.validate_ndarray, hdt, bind, Except.bind,
      pure, Except.pure]
  subst hx
  refine ⟨?_, ?_, ?_, ?_⟩ <;>
    simp only [VGeneral.validate_type_positive, VGeneral.validate_type_negative,
      V1d.validate_type_positive, V1d.validate_type_negative, ht, ht1,
      bind, Except.bind, pure, Except.pure] <;>
    cases zero <;> cases texcept <;>
    simp [List.all_eq_true] <;>
    constructor <;> intro h <;> (try split_ifs at h ⊢) <;> (try simp_all) <;>
    first
      | rfl
      | linarith
      | (rename_i hex
         obtain ⟨y, hy, hc⟩ := hex
         have hy2 := h y hy
         linarith)

/-- C4, witness: the strict positive validator accepts the float 1 in
raise mode. -/
theorem C4_sign_validators_witness :
    VGeneral.validate_type_positive (.vFloat 1) [.tInt, .tFloat] false true =
      .ok true :=
  ((C4_sign_validators (.vFloat 1) 1 rfl rfl false true
    ⟨.float64, [1]⟩ .float64 rfl).1).mpr (by norm_num)

/-- C8 (amended). In raise mode, the `validate_general.py` type+sign
validator raises the `TypeError` (TypeMismatch) failure exactly when
the type check fails, and the `ValueError` (ValueOutOfRange) failure
exactly when the type is correct but the sign/zero policy fails; the
`validate_properties.py` variant `validate_real_positve` instead
raises a `TypeError`-class failure in both cases, distinguishing them
only in its message (`rpNotReal` vs `rpNotPositive`, both of exception
class `TypeError`). -/
theorem C8_failure_kind_dichotomy (v : PyVal) (dt : TypeSpec) (zero : Bool) :
    (isinstance v dt = false →
      VGeneral.validate_type_positive v dt zero true =
        .error .scalarTypeMismatch ∧
      Err.cls .scalarTypeMismatch = .typeError) ∧
    (isinstance v dt = true → ¬(if zero then 0 ≤ v.toQ else 0 < v.toQ) →
      VGeneral.validate_type_positive v dt zero true =
        .error .scalarNotPositive ∧
      Err.cls .scalarNotPositive = .valueError) ∧
    (isinstance v [.tInt, .tFloat] = false →
      VProps.validate_real_positve v zero true = .error .rpNotReal) ∧
    (isinstance v [.tInt, .tFloat] = true →
      ¬(if zero then 0 ≤ v.toQ else 0 < v.toQ) →
      VProps.validate_real_positve v zero true = .error .rpNotPositive) ∧
    Err.cls .rpNotReal = .typeError ∧ Err.cls .rpNotPositive = .typeError := by
  refine ⟨?_, ?_, ?_, ?_, rfl, rfl⟩
  · intro h
    exact ⟨by simp [VGeneral.validate_type_positive, VGeneral.validate_type, h,
      bind, Except.bind], rfl⟩
  · intro h hs
    refine ⟨?_, rfl⟩
    have ht : VGeneral.validate_type v dt true = .ok true := by
      simp [VGeneral.validate_type, h]
    simp only [VGeneral.validate_type_positive, ht, bind, Except.bind,
      pure, Except.pure]
    cases zero <;> simp_all
  · intro h
    simp [VProps.validate_real_positve, h]
  · intro h hs
    simp only [VProps.validate_real_positve, h]
    cases zero <;> simp_all

/-- C8, counterexample to the claim as stated: on the integer `-1`
(correct type, failed sign policy) in raise mode,
`validate_real_positve` raises its sign-failure exception, and that
exception's class is `TypeError` — a TypeMismatch-kind failure where
the claim requires a ValueOutOfRange-kind one and "never a
TypeMismatch". -/
theorem C8_sign_failure_raises_typeerror :
    VProps.validate_real_positve (.vInt (-1)) false true =
      .error .rpNotPositive ∧
    Err.cls .rpNotPositive = .typeError ∧
    isinstance (PyVal.vInt (-1)) [.tInt, .tFloat] = true :=
  ⟨rfl, rfl, rfl⟩

/-- The double loop of `validate_unique_rows` collects no pair exactly
when no two rows with indices `i < j` are equal. -/
theorem dupRowPairs_eq_nil_iff (rows : List (List ℚ)) :
    V2d.dupRowPairs rows = [] ↔
      ∀ i < rows.length, ∀ j < rows.length, i < j →
        rows.getD i [] ≠ rows.getD j [] := by
  simp [V2d.dupRowPairs, List.flatMap_eq_nil_iff, List.map_eq_nil_iff,
    List.filter_eq_nil_iff]

/-- The double loop of `validate_unique_columns` collects no pair
exactly when no two columns with indices `i < j` are equal. -/
theorem dupColPairs_eq_nil_iff (rows : List (List ℚ)) (length : Nat) :
    V2d.dupColPairs rows length = [] ↔
      ∀ i < length, ∀ j < length, i < j →
        V2d.colAt rows i ≠ V2d.colAt rows j := by
  simp [V2d.dupColPairs, List.flatMap_eq_nil_iff, List.map_eq_nil_iff,
    List.filter_eq_nil_iff]

/-- C9. `validate_unique` succeeds iff the 1-D array's elements are
pairwise distinct (the number of distinct elements equals the length);
`validate_unique_rows` succeeds iff no two rows with indices `i < j`
are elementwise equal, and `validate_unique_columns` (on an array with
at least one row, whose first row fixes the column count) succeeds iff
no two columns with indices `i < j` are elementwise equal — each by
pairwise comparison over all index pairs `i < j`, in query and raise
mode alike. -/
theorem C9_uniqueness_validators (a : NDArray1) (A : NDArray2)
    (texcept : Bool) :
    (V1d.validate_unique a texcept = .ok true ↔ a.data.Nodup) ∧
    (V2d.validate_unique_rows A texcept = .ok true ↔
      ∀ i < A.rows.length, ∀ j < A.rows.length, i < j →
        A.rows.getD i [] ≠ A.rows.getD j []) ∧
    (∀ r0 rest, A.rows = r0 :: rest →
      (V2d.validate_unique_columns A texcept = .ok true ↔
        ∀ i < r0.length, ∀ j < r0.length, i < j →
          V2d.colAt A.rows i ≠ V2d.colAt A.rows j)) := by
  refine ⟨?_, ?_, ?_⟩
  · rw [V1d.validate_unique]
    simp only [V1d.validate_ndarray, bind, Except.bind, pure, Except.pure]
    rw [← dedup_length_eq_iff]
    cases texcept <;> by_cases h : a.data.dedup.length = a.data.length <;>
      simp_all
  · rw [V2d.validate_unique_rows]
    simp only [V2d.validate_ndarray, bind, Except.bind, pure, Except.pure]
    rw [← dupRowPairs_eq_nil_iff, ← List.isEmpty_iff]
    cases texcept <;> by_cases h : (V2d.dupRowPairs A.rows).isEmpty <;>
      simp_all
  · intro r0 rest hrows
    rw [V2d.validate_unique_columns]
    simp only [V2d.validate_ndarray, bind, Except.bind, pure, Except.pure, hrows]
    rw [← dupColPairs_eq_nil_iff, ← List.isEmpty_iff]
    cases texcept <;>
      by_cases h : (V2d.dupColPairs (r0 :: rest) r0.length).isEmpty <;>
      simp_all

/-- C10. `validate_unique_columns` on a 2-D array with at least one row
compares all column pairs and either returns a boolean or raises the
documented uniqueness failure; on a 2-D array with zero rows (shape
`(0, c)`) the access `array[0]` raises an `IndexError` before any
uniqueness logic, in query mode (`texcept = false`) as well as in
strict mode.  In query mode a non-empty array never raises. -/
theorem C10_unique_columns_needs_rows (A : NDArray2) (texcept : Bool) :
    (A.rows = [] →
      V2d.validate_unique_columns A texcept = .error .zeroRows ∧
      Err.cls .zeroRows = .indexError) ∧
    (A.rows ≠ [] →
      (∃ b, V2d.validate_unique_columns A texcept = .ok b) ∨
      (∃ pairs, V2d.validate_unique_columns A texcept =
        .error (.colsNotUnique pairs))) ∧
    (texcept = false → A.rows ≠ [] →
      ∃ b, V2d.validate_unique_columns A texcept = .ok b) := by
  have hsplit : ∀ rows0 : List (List ℚ), rows0 ≠ [] →
      ∃ r0 rest, rows0 = r0 :: rest := by
    intro rows0 h
    cases hh : rows0 with
    | nil => exact absurd hh h
    | cons a b => exact ⟨a, b, rfl⟩
  refine ⟨?_, ?_, ?_⟩
  · intro h
    refine ⟨?_, rfl⟩
    rw [V2d.validate_unique_columns]
    simp [V2d.validate_ndarray, bind, Except.bind, pure, Except.pure, h]
  · intro h
    obtain ⟨r0, rest, hrows⟩ := hsplit A.rows h
    rw [V2d.validate_unique_columns]
    simp only [V2d.validate_ndarray, bind, Except.bind, pure, Except.pure, hrows]
    by_cases hc : (V2d.dupColPairs (r0 :: rest) r0.length).isEmpty <;>
      cases texcept <;> simp [hc]
  · intro ht h
    obtain ⟨r0, rest, hrows⟩ := hsplit A.rows h
    subst ht
    rw [V2d.validate_unique_columns]
    simp only [V2d.validate_ndarray, bind, Except.bind, pure, Except.pure, hrows]
    by_cases hc : (V2d.dupColPairs (r0 :: rest) r0.length).isEmpty <;> simp [hc]

end ImgGen
